import Mathlib

/-!
Verification of the floor-plan browsing/filtering/comparison feature of the
`demo-lightwel-hub` front-end.  The definitions below are a shallow embedding
of the three source files:

* `src/components/FloorPlanComparisonModal.tsx` (the comparison modal and the
  `FloorPlans` list component),
* `src/components/FilterandNav.tsx` (the filter drawer, with its own copy of
  the filter predicate and the formatting helpers),
* `src/App.tsx` (the `FloorPlanFilters` shape).

JavaScript values of type `string | null | undefined` are embedded as
`Option String`; JavaScript truthiness on them (`null`, `undefined` and `""`
are falsy) is `optTruthy`.  `parseInt(s, 10)` and `parseFloat(s)` are embedded
as `parseIntJS` / `parseFloatJS`, returning `none` for `NaN` (no digits).
Decimal numerals are represented exactly (`Dec`).
-/

/-- JavaScript truthiness of a `string` value (`""` is falsy). -/
def strTruthy (s : String) : Bool := s ≠ ""

/-- JavaScript truthiness of a `string | null | undefined` value. -/
def optTruthy : Option String → Bool
  | none => false
  | some s => strTruthy s

/-- JavaScript `a || b` where `a : string | null | undefined` and `b` is a
string: returns `a` when it is truthy, else `b`. -/
def jsOrStr (a : Option String) (b : String) : String :=
  match a with
  | none => b
  | some s => if s = "" then b else s

/-- Sign parsing shared by `parseIntJS` and `parseFloatJS`: an optional
leading `+` or `-`. -/
def parseSign : List Char → Int × List Char
  | '-' :: rest => (-1, rest)
  | '+' :: rest => (1, rest)
  | cs => (1, cs)

/-- Value of a list of decimal digit characters, most significant first. -/
def digitsToNat (cs : List Char) : Nat :=
  cs.foldl (fun a c => 10 * a + (c.toNat - '0'.toNat)) 0

/-- JavaScript `parseInt(s, 10)`: skip leading whitespace, optional sign,
then the longest prefix of decimal digits; `none` models `NaN` (no digits).
Trailing garbage is ignored, as in JavaScript. -/
def parseIntJS (s : String) : Option Int :=
  let cs := s.toList.dropWhile Char.isWhitespace
  let (sgn, cs1) := parseSign cs
  let ds := cs1.takeWhile Char.isDigit
  if ds.isEmpty then none else some (sgn * (digitsToNat ds : Int))

/-- An exact finite decimal value `mantissa / 10 ^ scale`, the result of a
successful `parseFloat`.  Keeping the value in this form (instead of `ℚ`)
makes the embedded functions fully evaluable; `Dec.toRat` gives the
mathematical value. -/
structure Dec where
  mantissa : Int
  scale : Nat
deriving DecidableEq, Repr

/-- The rational value of a parsed decimal. -/
def Dec.toRat (d : Dec) : ℚ :=
  (d.mantissa : ℚ) / ((10 ^ d.scale : ℕ) : ℚ)

/-- JavaScript `Math.floor` on a parsed decimal: Euclidean division by the
(positive) power of ten rounds toward `-∞`, exactly as `Math.floor`. -/
def Dec.jsFloor (d : Dec) : Int :=
  d.mantissa / ((10 ^ d.scale : ℕ) : Int)

/-- JavaScript `num % 1 !== 0` on a parsed decimal: the value has a nonzero
fractional part exactly when the power of ten does not divide the
mantissa. -/
def Dec.hasFrac (d : Dec) : Bool :=
  d.mantissa % ((10 ^ d.scale : ℕ) : Int) ≠ 0

/-- JavaScript `parseFloat(s)` on finite decimal numerals: skip leading
whitespace, optional sign, integer digits, optional `.` and fraction digits,
optional `e`/`E` exponent; `none` models `NaN` (no digits at all).  The
numeric value is kept exactly. -/
def parseFloatJS (s : String) : Option Dec :=
  let cs := s.toList.dropWhile Char.isWhitespace
  let (sgn, cs1) := parseSign cs
  let intDigits := cs1.takeWhile Char.isDigit
  let rest1 := cs1.dropWhile Char.isDigit
  let (fracDigits, rest2) :=
    match rest1 with
    | '.' :: r => (r.takeWhile Char.isDigit, r.dropWhile Char.isDigit)
    | _ => (([] : List Char), rest1)
  if intDigits.isEmpty ∧ fracDigits.isEmpty then none
  else
    let mantissa : Int := sgn * (digitsToNat (intDigits ++ fracDigits) : Int)
    let expVal : Int :=
      match rest2 with
      | c :: r =>
        if c = 'e' ∨ c = 'E' then
          let (esgn, r2) := parseSign r
          let eds := r2.takeWhile Char.isDigit
          if eds.isEmpty then 0 else esgn * (digitsToNat eds : Int)
        else 0
      | [] => 0
    if 0 ≤ expVal then some ⟨mantissa * (10 : Int) ^ expVal.toNat, fracDigits.length⟩
    else some ⟨mantissa, fracDigits.length + (-expVal).toNat⟩

/-- A floor-plan record (`FloorPlanResponse` in `src/types/api`), restricted
to the fields the filtering/favorites/comparison logic reads.  Optional
string fields are `Option String`. -/
structure FloorPlanResponse where
  id : String
  projectId : Option String
  name : Option String
  bedRooms : Option String
  bathRooms : Option String
  totalSize : Option String
  interiorSize : Option String
deriving DecidableEq, Repr

/-- A project record from the static project configuration: its API id and
display name. -/
structure Project where
  projectId : Option String
  name : String
deriving DecidableEq, Repr

/-- The `sizeRange` filter value (`{ min: number; max: number }`). -/
structure SizeRange where
  min : Int
  max : Int
deriving DecidableEq, Repr

/-- The `FloorPlanFilters` state shape from `src/App.tsx`: empty string /
`null` means "filter not set". -/
structure FloorPlanFilters where
  projectName : String
  bedrooms : String
  bathrooms : String
  sizeRange : Option SizeRange
deriving DecidableEq, Repr

/-- Embedding of `getProjectName` as defined (identically) in `FloorPlans` and
`FilterandNav`: build a map from truthy `projectId` to project `name`
(later entries overwrite earlier ones, as `Map.set` does), return `null`
for a falsy input id, a missing entry, or an entry whose name is falsy
(`map.get(projectId) || null`). -/
def getProjectName (projects : List Project) (projectId : Option String) :
    Option String :=
  match projectId with
  | none => none
  | some pid =>
    if pid = "" then none
    else
      match (projects.filter (fun p => p.projectId = some pid)).getLast? with
      | none => none
      | some p => if p.name = "" then none else some p.name

example : getProjectName [⟨some "a", "Ansoku"⟩] (some "a") = some "Ansoku" := by decide
example : getProjectName [⟨some "a", "Ansoku"⟩] (some "b") = none := by decide
example : getProjectName [⟨some "a", "Ansoku"⟩, ⟨some "a", "Solin"⟩] (some "a") = some "Solin" := by
  decide
example : getProjectName [⟨some "a", ""⟩] (some "a") = none := by decide
example : parseIntJS "  -42abc" = some (-42) := by decide
example : parseIntJS "abc" = none := by decide
example : parseFloatJS "3.5" = some ⟨35, 1⟩ := by decide
example : parseFloatJS "1" = some ⟨1, 0⟩ := by decide
example : parseFloatJS "1.5e1" = some ⟨150, 1⟩ := by decide
example : parseFloatJS "-2.5" = some ⟨-25, 1⟩ := by decide
example : Dec.jsFloor ⟨35, 1⟩ = 3 := by decide
example : Dec.jsFloor ⟨-25, 1⟩ = -3 := by decide
example : Dec.hasFrac ⟨150, 1⟩ = false := by decide
example : Dec.hasFrac ⟨35, 1⟩ = true := by decide

/-- Embedding of `formatBedrooms` from `FloorPlanComparisonModal.tsx` (3.5 → "3 Beds +
Den"): falsy input gives `""`, a `NaN` parse returns the input unchanged,
otherwise `whole = Math.floor(num)` is pluralised (`whole !== 1`) and
`" + Den"` is appended when `num % 1 !== 0`. -/
def formatBedrooms (beds : Option String) : String :=
  match beds with
  | none => ""
  | some s =>
    if s = "" then ""
    else
      match parseFloatJS s with
      | none => s
      | some num =>
        let whole := num.jsFloor
        let plural := if whole ≠ 1 then "s" else ""
        if num.hasFrac then toString whole ++ " Bed" ++ plural ++ " + Den"
        else toString whole ++ " Bed" ++ plural

/-- Embedding of `formatBathrooms` from `FloorPlanComparisonModal.tsx` (2.5 → "2 Baths +
Powder"), structurally identical to `formatBedrooms`. -/
def formatBathrooms (baths : Option String) : String :=
  match baths with
  | none => ""
  | some s =>
    if s = "" then ""
    else
      match parseFloatJS s with
      | none => s
      | some num =>
        let whole := num.jsFloor
        let plural := if whole ≠ 1 then "s" else ""
        if num.hasFrac then toString whole ++ " Bath" ++ plural ++ " + Powder"
        else toString whole ++ " Bath" ++ plural

namespace FilterandNav

/-- Embedding of `formatBedrooms` as re-declared in `FilterandNav.tsx`: falsy input gives
`"0 Beds"` and there is no `isNaN` guard — when `parseFloat` yields `NaN`,
`Math.floor(NaN)` is `NaN`, `NaN % 1 !== 0` is `true` and `NaN !== 1` is
`true`, so the rendered string is `"NaN Beds + Den"`. -/
def formatBedrooms (beds : Option String) : String :=
  if !optTruthy beds then "0 Beds"
  else
    match parseFloatJS (beds.getD "") with
    | none => "NaN Beds + Den"
    | some num =>
      let whole := num.jsFloor
      let plural := if whole ≠ 1 then "s" else ""
      if num.hasFrac then toString whole ++ " Bed" ++ plural ++ " + Den"
      else toString whole ++ " Bed" ++ plural

/-- Embedding of `formatBathrooms` as re-declared in `FilterandNav.tsx`: falsy input gives
`"0 Baths"`, no `isNaN` guard (a `NaN` parse renders `"NaN Baths +
Powder"`). -/
def formatBathrooms (baths : Option String) : String :=
  if !optTruthy baths then "0 Baths"
  else
    match parseFloatJS (baths.getD "") with
    | none => "NaN Baths + Powder"
    | some num =>
      let whole := num.jsFloor
      let plural := if whole ≠ 1 then "s" else ""
      if num.hasFrac then toString whole ++ " Bath" ++ plural ++ " + Powder"
      else toString whole ++ " Bath" ++ plural

end FilterandNav

example : formatBedrooms (some "3.5") = "3 Beds + Den" := by decide
example : formatBedrooms (some "1") = "1 Bed" := by decide
example : formatBathrooms (some "2.5") = "2 Baths + Powder" := by decide
example : formatBedrooms (some "abc") = "abc" := by decide
example : FilterandNav.formatBedrooms none = "0 Beds" := by decide
example : FilterandNav.formatBedrooms (some "2") = "2 Beds" := by decide

/-- The local state of `FloorPlanComparisonModal`: the two selection slots
(`leftFloorPlan`, `rightFloorPlan`), which side the picker is replacing
(`pickerSide : 0 | 1 | null`), and the zoom flag. -/
structure ModalState where
  leftFloorPlan : Option FloorPlanResponse
  rightFloorPlan : Option FloorPlanResponse
  pickerSide : Option (Fin 2)
  isExpanded : Bool
deriving DecidableEq, Repr

/-- Embedding of `floorPlansToCompare`: `[leftFloorPlan, rightFloorPlan]` with the `null`
entries dropped. -/
def floorPlansToCompare (s : ModalState) : List FloorPlanResponse :=
  [s.leftFloorPlan, s.rightFloorPlan].filterMap (fun fp => fp)

/-- Embedding of `candidateFloorPlans`: empty while the modal is closed; otherwise the
favorited floor plans whose `id` is truthy and not among the (truthy) ids of
the two current selections (`[left?.id, right?.id].filter(Boolean)`). -/
def candidateFloorPlans (isOpen : Bool) (favoritedFloorPlans : List FloorPlanResponse)
    (s : ModalState) : List FloorPlanResponse :=
  if !isOpen then []
  else
    let excludedIds :=
      (([s.leftFloorPlan.map FloorPlanResponse.id,
         s.rightFloorPlan.map FloorPlanResponse.id].filterMap (fun i => i)).filter
        (fun i => i ≠ ""))
    favoritedFloorPlans.filter (fun fp => fp.id ≠ "" && !excludedIds.contains fp.id)

/-- Embedding of `handleReplaceFloorPlan`: write the chosen plan into the slot named by
`sideIndex` (`0` = left, else right), then close the picker. -/
def handleReplaceFloorPlan (s : ModalState) (sideIndex : Fin 2)
    (floorPlan : FloorPlanResponse) : ModalState :=
  let s1 :=
    if sideIndex = 0 then { s with leftFloorPlan := some floorPlan }
    else { s with rightFloorPlan := some floorPlan }
  { s1 with pickerSide := none }

/-- What the comparison modal renders when it does not return `null`: the
comparison body (one section per element of `floorPlansToCompare`) and, when
the picker is open, the candidate list it maps over. -/
structure ModalView where
  compared : List FloorPlanResponse
  picker : Option (List FloorPlanResponse)
deriving DecidableEq, Repr

/-- The render function of `FloorPlanComparisonModal`: `null` (here `none`)
when the modal is closed or fewer than two favorites exist, otherwise the
comparison body over `floorPlansToCompare` plus, when `pickerSide` is not
`null`, the picker over `candidateFloorPlans`. -/
def renderComparisonModal (isOpen : Bool) (favoritedFloorPlans : List FloorPlanResponse)
    (s : ModalState) : Option ModalView :=
  if !isOpen ∨ favoritedFloorPlans.length < 2 then none
  else
    some
      { compared := floorPlansToCompare s
        picker :=
          match s.pickerSide with
          | none => none
          | some _ => some (candidateFloorPlans isOpen favoritedFloorPlans s) }

/-- The filter predicate of `filteredFloorPlans` in `FloorPlans`
(`FloorPlanComparisonModal.tsx`, lines 431-451), with the early-`return
false` chain rendered as nested conditionals.  A `NaN` size parse fails both
JavaScript comparisons `size < min` and `size > max`, so such a plan is kept
by the size filter. -/
def floorPlanPasses (projects : List Project) (filters : FloorPlanFilters)
    (fp : FloorPlanResponse) : Bool :=
  if filters.projectName ≠ "" ∧ getProjectName projects fp.projectId ≠ some filters.projectName
    then false
  else if filters.bedrooms ≠ "" ∧ fp.bedRooms ≠ some filters.bedrooms then false
  else if filters.bathrooms ≠ "" ∧ fp.bathRooms ≠ some filters.bathrooms then false
  else
    match filters.sizeRange with
    | none => true
    | some r =>
      match parseIntJS (jsOrStr fp.totalSize (jsOrStr fp.interiorSize "0")) with
      | none => true
      | some size => if size < r.min ∨ r.max < size then false else true

/-- Embedding of `filteredFloorPlans` in `FloorPlans`: `[]` when no data was fetched,
otherwise the fetched list filtered by `floorPlanPasses`. -/
def filteredFloorPlans (projects : List Project) (filters : FloorPlanFilters) :
    Option (List FloorPlanResponse) → List FloorPlanResponse
  | none => []
  | some l => l.filter (floorPlanPasses projects filters)

/-- Embedding of `favoritedFloorPlans` in `FloorPlans`: `[]` when no data was fetched,
otherwise the fetched plans whose `id` is in the favorites id list
(`favorites.includes(fp.id)`). -/
def favoritedFloorPlans (favorites : List String) :
    Option (List FloorPlanResponse) → List FloorPlanResponse
  | none => []
  | some l => l.filter (fun fp => favorites.contains fp.id)

/-- Embedding of `filteredCount` (`FilterandNav.tsx`, lines 92-108): the
independent copy of the filter pipeline, translated on its own from that
file; returns the length of the filtered list. -/
def FilterandNav.filteredCount (projects : List Project) (filters : FloorPlanFilters) :
    Option (List FloorPlanResponse) → Nat
  | none => 0
  | some l =>
    (l.filter (fun fp =>
      if filters.projectName ≠ "" ∧
          getProjectName projects fp.projectId ≠ some filters.projectName then false
      else if filters.bedrooms ≠ "" ∧ fp.bedRooms ≠ some filters.bedrooms then false
      else if filters.bathrooms ≠ "" ∧ fp.bathRooms ≠ some filters.bathrooms then false
      else
        match filters.sizeRange with
        | none => true
        | some r =>
          match parseIntJS (jsOrStr fp.totalSize (jsOrStr fp.interiorSize "0")) with
          | none => true
          | some size => if size < r.min ∨ r.max < size then false else true)).length

/-- The slug list used by `FloorPlans`: `projectSlugs || ["ansoku", "solin",
"willa"]` (any supplied array, even empty, is truthy). -/
def floorPlansSlugs (projectSlugs : Option (List String)) : List String :=
  match projectSlugs with
  | some s => s
  | none => ["ansoku", "solin", "willa"]

/-- The fixed slug list requested by `FilterandNav` for its filter options. -/
def FilterandNav.slugs : List String := ["ansoku", "solin", "willa"]

/-- Modelled from the spec: the `useFloorPlans` remote-data-fetching hook is
not among the given sources ("driven by one remote-data-fetching hook"; "no
retry or recovery policy ... beyond the fetching hook's defaults").  Its
result exposes `data`, `isLoading`, `isError` and `error`; the loading,
error and success states are the mutually exclusive states of one fetch, so
they are modelled as a single status. -/
inductive FetchStatus where
  | loading
  | failure
  | success
deriving DecidableEq, Repr

/-- Modelled from the spec: the value returned by the fetching hook:
`data?.data` collapsed to an optional list, the fetch status, and
`error?.message` collapsed to an optional string. -/
structure FetchResult where
  status : FetchStatus
  data : Option (List FloorPlanResponse)
  errorMessage : Option String
deriving DecidableEq, Repr

/-- Field `isLoading` of the hook result. -/
def FetchResult.isLoading (r : FetchResult) : Bool :=
  match r.status with
  | .loading => true
  | _ => false

/-- Field `isError` of the hook result. -/
def FetchResult.isError (r : FetchResult) : Bool :=
  match r.status with
  | .failure => true
  | _ => false

/-- The non-error, non-loading, non-empty rendering of `FloorPlans`: the
grid over `filteredFloorPlans` (or the "no results" message when it is
empty), whether the Compare button is rendered (`canCompare`), and the
props handed to `FloorPlanComparisonModal` — its `isOpen` flag and the
`favoritedFloorPlans` list. -/
structure FloorPlansContent where
  grid : List FloorPlanResponse
  compareButton : Bool
  comparisonModalIsOpen : Bool
  comparisonModalFloorPlans : List FloorPlanResponse
deriving DecidableEq, Repr

/-- The four mutually exclusive things `FloorPlans` can render. -/
inductive FloorPlansView where
  | loading
  | errorView (message : String)
  | empty
  | content (c : FloorPlansContent)
deriving DecidableEq, Repr

/-- The render function of the `FloorPlans` component
(`FloorPlanComparisonModal.tsx`, lines 484-567): the loading branch, the
`isError` branch (`"Error loading floor plans: " + (error?.message ||
"Unknown error")`), the missing/empty-data branch, then the grid, the
Compare button guarded by `canCompare`, and the comparison modal fed with
`favoritedFloorPlans` (not with the filtered list). -/
def renderFloorPlans (projects : List Project) (filters : FloorPlanFilters)
    (favorites : List String) (isCompareModalOpen : Bool) (r : FetchResult) :
    FloorPlansView :=
  let filtered := filteredFloorPlans projects filters r.data
  let favPlans := favoritedFloorPlans favorites r.data
  let canCompare := decide (2 ≤ favPlans.length)
  if r.isLoading then .loading
  else if r.isError then
    .errorView ("Error loading floor plans: " ++ jsOrStr r.errorMessage "Unknown error")
  else
    match r.data with
    | none => .empty
    | some l =>
      if l.isEmpty then .empty
      else
        .content
          { grid := filtered
            compareButton := canCompare
            comparisonModalIsOpen := isCompareModalOpen
            comparisonModalFloorPlans := favPlans }

/-- The size string the filter parses: `fp.totalSize || fp.interiorSize ||
"0"`. -/
def sizeStr (fp : FloorPlanResponse) : String :=
  jsOrStr fp.totalSize (jsOrStr fp.interiorSize "0")

/-- Characterization of the filter predicate: a plan passes iff each set
filter field matches, where a plan whose size string parses to `NaN`
vacuously passes the size filter. -/
lemma floorPlanPasses_iff (projects : List Project) (f : FloorPlanFilters)
    (fp : FloorPlanResponse) :
    floorPlanPasses projects f fp = true ↔
      (f.projectName ≠ "" → getProjectName projects fp.projectId = some f.projectName) ∧
      (f.bedrooms ≠ "" → fp.bedRooms = some f.bedrooms) ∧
      (f.bathrooms ≠ "" → fp.bathRooms = some f.bathrooms) ∧
      (∀ r, f.sizeRange = some r →
        ∀ n, parseIntJS (sizeStr fp) = some n → r.min ≤ n ∧ n ≤ r.max) := by
  unfold floorPlanPasses
  split_ifs with h1 h2 h3
  · simp only [false_iff]
    rintro ⟨hp, -, -, -⟩
    exact h1.2 (hp h1.1)
  · simp only [false_iff]
    rintro ⟨-, hb, -, -⟩
    exact h2.2 (hb h2.1)
  · simp only [false_iff]
    rintro ⟨-, -, hb, -⟩
    exact h3.2 (hb h3.1)
  · push_neg at h1 h2 h3
    cases hsr : f.sizeRange with
    | none =>
      simp only [true_iff]
      refine ⟨h1, h2, h3, ?_⟩
      intro r hr
      exact absurd hr (by simp)
    | some r =>
      cases hpi : parseIntJS (jsOrStr fp.totalSize (jsOrStr fp.interiorSize "0")) with
      | none =>
        simp only [true_iff]
        refine ⟨h1, h2, h3, ?_⟩
        intro r' hr' n hn
        have hn2 : parseIntJS (jsOrStr fp.totalSize (jsOrStr fp.interiorSize "0")) = some n := hn
        rw [hpi] at hn2
        cases hn2
      | some n =>
        constructor
        · intro hpass
          refine ⟨h1, h2, h3, ?_⟩
          intro r' hr' n' hn'
          have hn2 : parseIntJS (jsOrStr fp.totalSize (jsOrStr fp.interiorSize "0")) = some n' :=
            hn'
          rw [hpi] at hn2
          cases hn2
          cases hr'
          change (if n < r.min ∨ r.max < n then false else true) = true at hpass
          split_ifs at hpass with hcmp
          push_neg at hcmp
          omega
        · rintro ⟨-, -, -, hsz⟩
          have h := hsz r rfl n (show parseIntJS (sizeStr fp) = some n from hpi)
          change (if n < r.min ∨ r.max < n then false else true) = true
          split_ifs with hcmp
          · omega
          · rfl

/-- The embedded `Math.floor` agrees with the mathematical floor of the
parsed decimal value. -/
lemma jsFloor_eq_floor (d : Dec) : d.jsFloor = ⌊d.toRat⌋ := by
  rw [Dec.jsFloor, Dec.toRat, Rat.floor_intCast_div_natCast]

/-- The embedded `num % 1 !== 0` test holds exactly when the parsed value
has a nonzero fractional part (is not equal to its floor). -/
lemma hasFrac_iff (d : Dec) : d.hasFrac = true ↔ d.toRat ≠ (⌊d.toRat⌋ : ℚ) := by
  have hX : (0 : Int) < ((10 ^ d.scale : ℕ) : Int) := by positivity
  have hXq : ((10 ^ d.scale : ℕ) : ℚ) ≠ 0 := by positivity
  rw [Dec.hasFrac, ← jsFloor_eq_floor]
  simp only [decide_eq_true_eq, ne_eq, not_iff_not]
  rw [Dec.toRat, Dec.jsFloor, div_eq_iff hXq]
  have hcast :
      ((d.mantissa / ((10 ^ d.scale : ℕ) : Int) : Int) : ℚ) * ((10 ^ d.scale : ℕ) : ℚ) =
        (((d.mantissa / ((10 ^ d.scale : ℕ) : Int)) * ((10 ^ d.scale : ℕ) : Int) : Int) : ℚ) := by
      push_cast
      ring
  rw [hcast]
  rw [show ((d.mantissa : ℚ) = (((d.mantissa / ((10 ^ d.scale : ℕ) : Int)) *
      ((10 ^ d.scale : ℕ) : Int) : Int) : ℚ)) ↔
      (d.mantissa = (d.mantissa / ((10 ^ d.scale : ℕ) : Int)) * ((10 ^ d.scale : ℕ) : Int))
    from Int.cast_inj]
  constructor
  · intro h
    have key := Int.ediv_add_emod d.mantissa ((10 ^ d.scale : ℕ) : Int)
    have hcomm := mul_comm ((10 ^ d.scale : ℕ) : Int)
      (d.mantissa / ((10 ^ d.scale : ℕ) : Int))
    linarith
  · intro h
    have key := Int.ediv_add_emod d.mantissa ((10 ^ d.scale : ℕ) : Int)
    have hcomm := mul_comm ((10 ^ d.scale : ℕ) : Int)
      (d.mantissa / ((10 ^ d.scale : ℕ) : Int))
    linarith

/-- Common shape of the four formatting functions on a successfully parsed
value: the floor is printed, pluralised unless it is `1`, and the extra
suffix is appended exactly when the value has a nonzero fractional part. -/
lemma format_template (d : Dec) (unit extra : String) :
    (if d.hasFrac then toString d.jsFloor ++ unit ++ (if d.jsFloor ≠ 1 then "s" else "") ++ extra
     else toString d.jsFloor ++ unit ++ (if d.jsFloor ≠ 1 then "s" else "")) =
      (if d.toRat = (⌊d.toRat⌋ : ℚ)
       then toString ⌊d.toRat⌋ ++ unit ++ (if ⌊d.toRat⌋ = 1 then "" else "s")
       else toString ⌊d.toRat⌋ ++ unit ++ (if ⌊d.toRat⌋ = 1 then "" else "s") ++ extra) := by
  rw [← jsFloor_eq_floor]
  have hplural : (if d.jsFloor ≠ 1 then "s" else "") = (if d.jsFloor = 1 then "" else "s") := by
    by_cases h : d.jsFloor = 1 <;> simp [h]
  rw [hplural]
  have hcond : (d.toRat = ((d.jsFloor : Int) : ℚ)) ↔ d.toRat = (⌊d.toRat⌋ : ℚ) := by
    rw [jsFloor_eq_floor]
  by_cases hf : d.hasFrac
  · rw [if_pos hf, if_neg (fun h => (hasFrac_iff d).mp hf (hcond.mp h))]
  · rw [if_neg hf, if_pos (hcond.mpr (not_not.mp (fun hne => hf ((hasFrac_iff d).mpr hne))))]

/-- A sample project used to instantiate the universally quantified
theorems. -/
def sampleProject : Project := ⟨some "p1", "Ansoku"⟩

/-- A sample floor plan with integral bed/bath counts and numeric sizes. -/
def fpA : FloorPlanResponse :=
  ⟨"a", some "p1", some "A1", some "2", some "2", some "1200", some "1100"⟩

/-- A second sample floor plan, with half counts. -/
def fpB : FloorPlanResponse :=
  ⟨"b", some "p1", some "B1", some "3.5", some "2.5", some "1500", some "1400"⟩

/-- A sample floor plan whose size strings do not parse to an integer. -/
def fpNaN : FloorPlanResponse :=
  ⟨"c", some "p1", some "C1", some "1", some "1", some "N/A", none⟩

/-- Filters with nothing set. -/
def emptyFilters : FloorPlanFilters := ⟨"", "", "", none⟩

/-- Filters with only the size range set. -/
def sizeOnlyFilters : FloorPlanFilters := ⟨"", "", "", some ⟨0, 10000⟩⟩

/-- C1: The comparison modal shows at most two selections: for every state
of `FloorPlanComparisonModal`, `floorPlansToCompare` — built from the left
and right selection slots by dropping `null` entries — has length at most 2,
so a rendered comparison body never maps over more than two floor plans. -/
theorem floorPlansToCompare_length_le_two (s : ModalState) :
    (floorPlansToCompare s).length ≤ 2 ∧
    ∀ (isOpen : Bool) (favs : List FloorPlanResponse) (v : ModalView),
      renderComparisonModal isOpen favs s = some v → v.compared.length ≤ 2 := by
  have h : (floorPlansToCompare s).length ≤ 2 := by
    unfold floorPlansToCompare
    cases s.leftFloorPlan <;> cases s.rightFloorPlan <;> simp
  refine ⟨h, ?_⟩
  intro isOpen favs v hv
  unfold renderComparisonModal at hv
  split_ifs at hv
  cases hv
  exact h

/-- Witness for C1 at a concrete modal state and a concrete render. -/
theorem floorPlansToCompare_length_le_two_witness :
    (floorPlansToCompare ⟨some fpA, some fpB, none, false⟩).length ≤ 2 ∧
    (ModalView.mk [fpA, fpB] none).compared.length ≤ 2 :=
  ⟨(floorPlansToCompare_length_le_two ⟨some fpA, some fpB, none, false⟩).1,
   (floorPlansToCompare_length_le_two ⟨some fpA, some fpB, none, false⟩).2
     true [fpA, fpB] ⟨[fpA, fpB], none⟩ (by decide)⟩

/-- C7: `FloorPlans` without a `projectSlugs` prop requests exactly
`["ansoku", "solin", "willa"]`, and `FilterandNav` requests the same fixed
slug list for its filter options. -/
theorem slugs_fixed_and_agree :
    floorPlansSlugs none = ["ansoku", "solin", "willa"] ∧
    FilterandNav.slugs = floorPlansSlugs none :=
  ⟨rfl, rfl⟩

/-- C8: the two independent copies of the filter predicate agree — for
every configuration, filter setting and fetched data, `filteredCount` in
`FilterandNav` equals the length of `filteredFloorPlans` in `FloorPlans`. -/
theorem filteredCount_eq_filteredFloorPlans_length (projects : List Project)
    (filters : FloorPlanFilters) (data : Option (List FloorPlanResponse)) :
    FilterandNav.filteredCount projects filters data =
      (filteredFloorPlans projects filters data).length := by
  cases data with
  | none => rfl
  | some l => rfl

/-- C3: filter selection narrows the visible list — the filtered list is a
sublist of the fetched list, and setting any one filter field (project name,
bedrooms, bathrooms, or size range) from empty/`null` to a value yields a
sublist of the list obtained with that field empty/`null`. -/
theorem filter_narrows (projects : List Project) (f : FloorPlanFilters)
    (l : List FloorPlanResponse) (pn bd bt : String) (r : SizeRange) :
    List.Sublist (filteredFloorPlans projects f (some l)) l ∧
    List.Sublist (filteredFloorPlans projects { f with projectName := pn } (some l))
      (filteredFloorPlans projects { f with projectName := "" } (some l)) ∧
    List.Sublist (filteredFloorPlans projects { f with bedrooms := bd } (some l))
      (filteredFloorPlans projects { f with bedrooms := "" } (some l)) ∧
    List.Sublist (filteredFloorPlans projects { f with bathrooms := bt } (some l))
      (filteredFloorPlans projects { f with bathrooms := "" } (some l)) ∧
    List.Sublist (filteredFloorPlans projects { f with sizeRange := some r } (some l))
      (filteredFloorPlans projects { f with sizeRange := none } (some l)) := by
  refine ⟨List.filter_sublist l, ?_, ?_, ?_, ?_⟩
  · refine List.monotone_filter_right l ?_
    intro fp h
    rw [floorPlanPasses_iff] at h ⊢
    obtain ⟨-, h2, h3, h4⟩ := h
    exact ⟨fun hne => absurd rfl hne, h2, h3, h4⟩
  · refine List.monotone_filter_right l ?_
    intro fp h
    rw [floorPlanPasses_iff] at h ⊢
    obtain ⟨h1, -, h3, h4⟩ := h
    exact ⟨h1, fun hne => absurd rfl hne, h3, h4⟩
  · refine List.monotone_filter_right l ?_
    intro fp h
    rw [floorPlanPasses_iff] at h ⊢
    obtain ⟨h1, h2, -, h4⟩ := h
    exact ⟨h1, h2, fun hne => absurd rfl hne, h4⟩
  · refine List.monotone_filter_right l ?_
    intro fp h
    rw [floorPlanPasses_iff] at h ⊢
    obtain ⟨h1, h2, h3, -⟩ := h
    refine ⟨h1, h2, h3, ?_⟩
    intro r' hr'
    exact absurd hr' (by simp)

/-- C2 (amended): a fetched floor plan appears in `filteredFloorPlans` iff
each non-empty filter field matches it directly and, when a size range is
set, either its size string (`totalSize || interiorSize || "0"`) parses to
no integer — a `NaN` parse passes the size filter — or the parsed integer
lies in `[min, max]` inclusive; the filtered list preserves the order of
the fetched list. -/
theorem filteredFloorPlans_mem_iff (projects : List Project) (f : FloorPlanFilters)
    (l : List FloorPlanResponse) (fp : FloorPlanResponse) (hmem : fp ∈ l) :
    (fp ∈ filteredFloorPlans projects f (some l) ↔
      (f.projectName ≠ "" → getProjectName projects fp.projectId = some f.projectName) ∧
      (f.bedrooms ≠ "" → fp.bedRooms = some f.bedrooms) ∧
      (f.bathrooms ≠ "" → fp.bathRooms = some f.bathrooms) ∧
      (∀ r, f.sizeRange = some r →
        parseIntJS (sizeStr fp) = none ∨
        ∃ n, parseIntJS (sizeStr fp) = some n ∧ r.min ≤ n ∧ n ≤ r.max)) ∧
    List.Sublist (filteredFloorPlans projects f (some l)) l := by
  have key : fp ∈ filteredFloorPlans projects f (some l) ↔
      floorPlanPasses projects f fp = true := by
    simp [filteredFloorPlans, List.mem_filter, hmem]
  refine ⟨?_, List.filter_sublist l⟩
  rw [key, floorPlanPasses_iff]
  constructor
  · rintro ⟨h1, h2, h3, h4⟩
    refine ⟨h1, h2, h3, ?_⟩
    intro r hr
    cases hpi : parseIntJS (sizeStr fp) with
    | none => exact Or.inl rfl
    | some n => exact Or.inr ⟨n, rfl, h4 r hr n hpi⟩
  · rintro ⟨h1, h2, h3, h4⟩
    refine ⟨h1, h2, h3, ?_⟩
    intro r hr n hn
    rcases h4 r hr with hnone | ⟨n', hn', hb⟩
    · rw [hnone] at hn
      cases hn
    · rw [hn'] at hn
      cases hn
      exact hb

/-- C2 counterexample: with only a size range `[0, 10000]` set, the plan
`fpNaN` — whose size string is `"N/A"`, parsing to `NaN` — is kept by the
filter although no parsed integer lies in the range, refuting the claimed
"if and only if ... the integer parsed ... lies in [min, max]". -/
theorem filteredFloorPlans_mem_iff_counterexample :
    fpNaN ∈ filteredFloorPlans [sampleProject] sizeOnlyFilters (some [fpNaN]) ∧
    sizeOnlyFilters.sizeRange = some ⟨0, 10000⟩ ∧
    ¬ ∃ n, parseIntJS (sizeStr fpNaN) = some n ∧ 0 ≤ n ∧ n ≤ 10000 := by
  refine ⟨by decide, rfl, ?_⟩
  have h0 : parseIntJS (sizeStr fpNaN) = none := by decide
  rintro ⟨n, hn, -⟩
  rw [h0] at hn
  cases hn

/-- Witness for C2 (amended) at a concrete plan, filter and list. -/
theorem filteredFloorPlans_mem_iff_witness :
    (fpA ∈ filteredFloorPlans [sampleProject] sizeOnlyFilters (some [fpA]) ↔
      (sizeOnlyFilters.projectName ≠ "" →
        getProjectName [sampleProject] fpA.projectId = some sizeOnlyFilters.projectName) ∧
      (sizeOnlyFilters.bedrooms ≠ "" → fpA.bedRooms = some sizeOnlyFilters.bedrooms) ∧
      (sizeOnlyFilters.bathrooms ≠ "" → fpA.bathRooms = some sizeOnlyFilters.bathrooms) ∧
      (∀ r, sizeOnlyFilters.sizeRange = some r →
        parseIntJS (sizeStr fpA) = none ∨
        ∃ n, parseIntJS (sizeStr fpA) = some n ∧ r.min ≤ n ∧ n ≤ r.max)) ∧
    List.Sublist (filteredFloorPlans [sampleProject] sizeOnlyFilters (some [fpA])) [fpA] :=
  filteredFloorPlans_mem_iff [sampleProject] sizeOnlyFilters [fpA] fpA (by decide)

/-- C4: for every input string that parses (via `parseFloat`) to a value
`n` with whole part `w = ⌊n⌋`, `formatBedrooms` returns `"w Bed"` when
`w = 1` and `"w Beds"` otherwise, with `" + Den"` appended exactly when `n`
has a nonzero fractional part; `formatBathrooms` behaves identically with
`"Bath"`/`"Baths"` and `" + Powder"`; the `FilterandNav` copies agree on
these inputs. -/
theorem format_functions_spec (s : String) (d : Dec) (h : parseFloatJS s = some d) :
    (formatBedrooms (some s) =
      if d.toRat = (⌊d.toRat⌋ : ℚ)
      then toString ⌊d.toRat⌋ ++ " Bed" ++ (if ⌊d.toRat⌋ = 1 then "" else "s")
      else toString ⌊d.toRat⌋ ++ " Bed" ++ (if ⌊d.toRat⌋ = 1 then "" else "s") ++ " + Den") ∧
    (formatBathrooms (some s) =
      if d.toRat = (⌊d.toRat⌋ : ℚ)
      then toString ⌊d.toRat⌋ ++ " Bath" ++ (if ⌊d.toRat⌋ = 1 then "" else "s")
      else toString ⌊d.toRat⌋ ++ " Bath" ++ (if ⌊d.toRat⌋ = 1 then "" else "s") ++ " + Powder") ∧
    FilterandNav.formatBedrooms (some s) = formatBedrooms (some s) ∧
    FilterandNav.formatBathrooms (some s) = formatBathrooms (some s) := by
  have hs : s ≠ "" := by
    intro he
    rw [he] at h
    rw [show parseFloatJS "" = none from by decide] at h
    cases h
  have htruthy : (!optTruthy (some s)) = false := by
    simp [optTruthy, strTruthy, hs]
  constructor
  · simp only [formatBedrooms]
    rw [if_neg hs, h]
    exact format_template d " Bed" " + Den"
  constructor
  · simp only [formatBathrooms]
    rw [if_neg hs, h]
    exact format_template d " Bath" " + Powder"
  constructor
  · simp only [formatBedrooms, FilterandNav.formatBedrooms, htruthy]
    rw [if_neg hs, Option.getD_some, h]
    rfl
  · simp only [formatBathrooms, FilterandNav.formatBathrooms, htruthy]
    rw [if_neg hs, Option.getD_some, h]
    rfl

/-- Witness for C4 at the spec's example inputs: `"3.5"`, `"2.5"`, `"1"`. -/
theorem format_functions_spec_witness :
    formatBedrooms (some "3.5") = "3 Beds + Den" ∧
    formatBathrooms (some "2.5") = "2 Baths + Powder" ∧
    formatBedrooms (some "1") = "1 Bed" ∧
    FilterandNav.formatBedrooms (some "3.5") = formatBedrooms (some "3.5") := by
  have h35 := format_functions_spec "3.5" ⟨35, 1⟩ (by decide)
  have h25 := format_functions_spec "2.5" ⟨25, 1⟩ (by decide)
  have h1 := format_functions_spec "1" ⟨1, 0⟩ (by decide)
  have hf35 : Dec.toRat ⟨35, 1⟩ ≠ (⌊Dec.toRat ⟨35, 1⟩⌋ : ℚ) :=
    (hasFrac_iff ⟨35, 1⟩).mp (by decide)
  have hfl35 : ⌊Dec.toRat ⟨35, 1⟩⌋ = 3 := by
    rw [← jsFloor_eq_floor]
    decide
  have hf25 : Dec.toRat ⟨25, 1⟩ ≠ (⌊Dec.toRat ⟨25, 1⟩⌋ : ℚ) :=
    (hasFrac_iff ⟨25, 1⟩).mp (by decide)
  have hfl25 : ⌊Dec.toRat ⟨25, 1⟩⌋ = 2 := by
    rw [← jsFloor_eq_floor]
    decide
  have hq1 : Dec.toRat ⟨1, 0⟩ = (⌊Dec.toRat ⟨1, 0⟩⌋ : ℚ) :=
    not_not.mp (fun hne =>
      (by decide : ¬ Dec.hasFrac ⟨1, 0⟩ = true) ((hasFrac_iff ⟨1, 0⟩).mpr hne))
  have hfl1 : ⌊Dec.toRat ⟨1, 0⟩⌋ = 1 := by
    rw [← jsFloor_eq_floor]
    decide
  refine ⟨?_, ?_, ?_, h35.2.2.1⟩
  · rw [h35.1, if_neg hf35, hfl35]
    decide
  · rw [h25.2.1, if_neg hf25, hfl25]
    decide
  · rw [h1.1, if_pos hq1, hfl1]
    decide

/-- A fetch result that failed with an error whose message is the empty
string (`new Error("")`). -/
def errEmptyMsg : FetchResult := ⟨.failure, none, some ""⟩

/-- A sample modal state: comparing `fpA` and `fpB` with the picker opened
for the left side. -/
def sampleState : ModalState := ⟨some fpA, some fpB, some 0, false⟩

/-- C5 (amended): for every fetch result with `isError` true, `FloorPlans`
renders only the inline error element whose text is
`"Error loading floor plans: "` followed by `error.message` when it is
present and non-empty, and `"Unknown error"` when it is absent or empty;
neither the grid, the Compare button, nor either modal is rendered. -/
theorem renderFloorPlans_error (projects : List Project) (filters : FloorPlanFilters)
    (favorites : List String) (isCmpOpen : Bool) (r : FetchResult)
    (h : r.isError = true) :
    renderFloorPlans projects filters favorites isCmpOpen r =
      .errorView ("Error loading floor plans: " ++
        (match r.errorMessage with
         | none => "Unknown error"
         | some m => if m = "" then "Unknown error" else m)) := by
  have hload : r.isLoading = false := by
    unfold FetchResult.isError at h
    unfold FetchResult.isLoading
    cases hst : r.status <;> simp_all
  unfold renderFloorPlans
  rw [hload, h]
  rfl

/-- C5 counterexample: with an error whose message is present but empty,
the code renders `"Unknown error"` rather than the (empty) `error.message`,
refuting the claim as stated. -/
theorem renderFloorPlans_error_counterexample :
    errEmptyMsg.isError = true ∧ errEmptyMsg.errorMessage = some "" ∧
    renderFloorPlans [] emptyFilters [] false errEmptyMsg =
      .errorView "Error loading floor plans: Unknown error" ∧
    renderFloorPlans [] emptyFilters [] false errEmptyMsg ≠
      .errorView ("Error loading floor plans: " ++ "") := by
  decide

/-- Witness for C5 (amended) at a concrete failed fetch. -/
theorem renderFloorPlans_error_witness :
    renderFloorPlans [] emptyFilters [] false ⟨.failure, none, some "boom"⟩ =
      .errorView "Error loading floor plans: boom" := by
  have h := renderFloorPlans_error [] emptyFilters [] false
    ⟨.failure, none, some "boom"⟩ (by decide)
  rw [h]
  decide

/-- C6: the local-favorites store drives the comparison input —
`favoritedFloorPlans` contains exactly the fetched plans whose `id` is in
the favorites list, in fetched order, and it (not the filtered list) is the
list handed to the comparison modal. -/
theorem favoritedFloorPlans_spec (favorites : List String) (l : List FloorPlanResponse)
    (fp : FloorPlanResponse) (projects : List Project) (filters : FloorPlanFilters)
    (isCmpOpen : Bool) (r : FetchResult) :
    (fp ∈ favoritedFloorPlans favorites (some l) ↔ fp ∈ l ∧ fp.id ∈ favorites) ∧
    List.Sublist (favoritedFloorPlans favorites (some l)) l ∧
    (∀ c : FloorPlansContent,
      renderFloorPlans projects filters favorites isCmpOpen r = .content c →
      c.comparisonModalFloorPlans = favoritedFloorPlans favorites r.data) := by
  refine ⟨?_, List.filter_sublist l, ?_⟩
  · simp [favoritedFloorPlans, List.mem_filter]
  · intro c hc
    unfold renderFloorPlans at hc
    split_ifs at hc
    cases hd : r.data with
    | none =>
      simp only [hd] at hc
      cases hc
    | some l2 =>
      simp only [hd] at hc
      by_cases he : l2.isEmpty
      · rw [if_pos he] at hc
        cases hc
      · rw [if_neg he] at hc
        cases hc
        rfl

/-- Witness for C6 at a concrete fetch, favorites list and render. -/
theorem favoritedFloorPlans_spec_witness :
    (fpA ∈ favoritedFloorPlans ["a"] (some [fpA, fpB]) ↔
      fpA ∈ [fpA, fpB] ∧ fpA.id ∈ ["a"]) ∧
    List.Sublist (favoritedFloorPlans ["a"] (some [fpA, fpB])) [fpA, fpB] ∧
    (FloorPlansContent.mk [fpA, fpB] false false [fpA]).comparisonModalFloorPlans =
      favoritedFloorPlans ["a"] (FetchResult.mk .success (some [fpA, fpB]) none).data := by
  have h := favoritedFloorPlans_spec ["a"] [fpA, fpB] fpA [sampleProject] emptyFilters
    false ⟨.success, some [fpA, fpB], none⟩
  exact ⟨h.1, h.2.1, h.2.2 ⟨[fpA, fpB], false, false, [fpA]⟩ (by decide)⟩

/-- C9: with the modal open, every picker candidate has a non-empty `id`
differing from the ids of both current selections, and selecting a
candidate replaces exactly the slot named by `pickerSide` (leaving the
other slot and the zoom flag unchanged) and closes the picker. -/
theorem candidateFloorPlans_spec (favs : List FloorPlanResponse) (s : ModalState)
    (fp : FloorPlanResponse) (hmem : fp ∈ candidateFloorPlans true favs s)
    (side : Fin 2) (_hside : s.pickerSide = some side) :
    (fp.id ≠ "" ∧
     (∀ lf, s.leftFloorPlan = some lf → fp.id ≠ lf.id) ∧
     (∀ rf, s.rightFloorPlan = some rf → fp.id ≠ rf.id)) ∧
    ((handleReplaceFloorPlan s side fp).pickerSide = none ∧
     (side = 0 → (handleReplaceFloorPlan s side fp).leftFloorPlan = some fp ∧
       (handleReplaceFloorPlan s side fp).rightFloorPlan = s.rightFloorPlan) ∧
     (side = 1 → (handleReplaceFloorPlan s side fp).rightFloorPlan = some fp ∧
       (handleReplaceFloorPlan s side fp).leftFloorPlan = s.leftFloorPlan) ∧
     (handleReplaceFloorPlan s side fp).isExpanded = s.isExpanded) := by
  have hmem2 : fp ∈ favs.filter (fun fp =>
      fp.id ≠ "" && !((([s.leftFloorPlan.map FloorPlanResponse.id,
        s.rightFloorPlan.map FloorPlanResponse.id].filterMap (fun i => i)).filter
          (fun i => i ≠ "")).contains fp.id)) := hmem
  rw [List.mem_filter] at hmem2
  obtain ⟨-, hpred⟩ := hmem2
  rw [Bool.and_eq_true] at hpred
  obtain ⟨hid, hnc⟩ := hpred
  have hid2 : fp.id ≠ "" := by simpa using hid
  have hnotin : fp.id ∉ ([s.leftFloorPlan.map FloorPlanResponse.id,
      s.rightFloorPlan.map FloorPlanResponse.id].filterMap (fun i => i)).filter
        (fun i => i ≠ "") := by
    rw [Bool.not_eq_true'] at hnc
    simpa using hnc
  constructor
  · refine ⟨hid2, ?_, ?_⟩
    · intro lf hlf heq
      by_cases hlfid : lf.id = ""
      · exact hid2 (heq.trans hlfid)
      · refine hnotin ?_
        rw [heq]
        simp [List.mem_filter, List.mem_filterMap, hlf, hlfid]
    · intro rf hrf heq
      by_cases hrfid : rf.id = ""
      · exact hid2 (heq.trans hrfid)
      · refine hnotin ?_
        rw [heq]
        simp [List.mem_filter, List.mem_filterMap, hrf, hrfid]
  · refine ⟨?_, ?_, ?_, ?_⟩
    · by_cases h0 : side = 0 <;> simp [handleReplaceFloorPlan, h0]
    · intro h0
      simp [handleReplaceFloorPlan, h0]
    · intro h1
      have h0 : ¬(side = 0) := by
        rw [h1]
        decide
      simp [handleReplaceFloorPlan, h0]
    · by_cases h0 : side = 0 <;> simp [handleReplaceFloorPlan, h0]

/-- Witness for C9: replacing the left selection with the third favorite. -/
theorem candidateFloorPlans_spec_witness :
    fpNaN.id ≠ "" ∧ fpNaN.id ≠ fpA.id ∧ fpNaN.id ≠ fpB.id ∧
    (handleReplaceFloorPlan sampleState 0 fpNaN).pickerSide = none ∧
    (handleReplaceFloorPlan sampleState 0 fpNaN).leftFloorPlan = some fpNaN ∧
    (handleReplaceFloorPlan sampleState 0 fpNaN).rightFloorPlan = sampleState.rightFloorPlan ∧
    (handleReplaceFloorPlan sampleState 0 fpNaN).isExpanded = sampleState.isExpanded := by
  have h := candidateFloorPlans_spec [fpA, fpB, fpNaN] sampleState fpNaN (by decide) 0 rfl
  exact ⟨h.1.1, h.1.2.1 fpA rfl, h.1.2.2 fpB rfl, h.2.1, (h.2.2.1 rfl).1,
    (h.2.2.1 rfl).2, h.2.2.2.2⟩

/-- C10: the comparison modal renders nothing unless it is open and at
least two favorites exist, and the Compare button is rendered by
`FloorPlans` only when at least two favorited floor plans exist. -/
theorem comparison_requires_two_favorites :
    (∀ (isOpen : Bool) (favs : List FloorPlanResponse) (s : ModalState),
      (isOpen = false ∨ favs.length < 2) → renderComparisonModal isOpen favs s = none) ∧
    (∀ (projects : List Project) (filters : FloorPlanFilters) (favorites : List String)
      (isCmpOpen : Bool) (r : FetchResult) (c : FloorPlansContent),
      renderFloorPlans projects filters favorites isCmpOpen r = .content c →
      c.compareButton = true → 2 ≤ (favoritedFloorPlans favorites r.data).length) := by
  constructor
  · rintro isOpen favs s (h | h)
    · subst h
      rfl
    · unfold renderComparisonModal
      rw [if_pos (Or.inr h)]
  · intro projects filters favorites isCmpOpen r c hc hbtn
    unfold renderFloorPlans at hc
    split_ifs at hc
    cases hd : r.data with
    | none =>
      simp only [hd] at hc
      cases hc
    | some l2 =>
      simp only [hd] at hc
      by_cases he : l2.isEmpty
      · rw [if_pos he] at hc
        cases hc
      · rw [if_neg he] at hc
        cases hc
        exact of_decide_eq_true hbtn

/-- Witness for C10: a closed modal renders nothing, and a rendered Compare
button comes with two favorited plans. -/
theorem comparison_requires_two_favorites_witness :
    renderComparisonModal false [fpA, fpB] sampleState = none ∧
    2 ≤ (favoritedFloorPlans ["a", "b"]
      (FetchResult.mk .success (some [fpA, fpB]) none).data).length :=
  ⟨comparison_requires_two_favorites.1 false [fpA, fpB] sampleState (Or.inl rfl),
   comparison_requires_two_favorites.2 [sampleProject] emptyFilters ["a", "b"] false
     ⟨.success, some [fpA, fpB], none⟩ ⟨[fpA, fpB], true, false, [fpA, fpB]⟩
     (by decide) (by decide)⟩
